import Mathlib

/-!
Shallow embedding of the realm-js schema-normalization module
(`normalizeRealmSchema` / `normalizeObjectSchema` / `normalizePropertySchema`
and their helpers).  Every definition below is a direct translation of the
corresponding TypeScript function; JavaScript truthiness on strings and
booleans is made explicit (an absent value is `none`, and an empty string is
falsy).  The deprecated array-of-properties input shape (guarded by the
`ALLOW_VALUES_ARRAYS` flag) is outside the modelled input type: the raw
object definitions here are always in mapping form, matching the
`PropertiesTypes` record type of the source.

JavaScript `String.prototype.endsWith` is modelled by `jsEndsWith` (comparing
the suffix against the tail of the string), and `substring` from/to the ends
of the string by `String.takeRight` / `String.dropRight`.
-/

namespace RealmSchema

/-- Errors raised by the normalizer: `SchemaParseError`,
`ObjectSchemaParseError` (carrying the object name) and
`PropertySchemaParseError` (carrying the object and property names). -/
inductive SchemaError where
  | schemaParse (message : String)
  | objectParse (objectName : String) (message : String)
  | propParse (objectName : String) (propertyName : String) (message : String)
deriving Repr, DecidableEq

/-- The `PropertyInfo` context threaded through property normalization:
owning object name, property name, and whether this property is the
declared primary key (`!!info.isPrimaryKey` in the source). -/
structure PropertyInfo where
  objectName : String
  propertyName : String
  isPrimaryKey : Bool
deriving Repr, DecidableEq

/-- Explicit (object-form) raw property definition, the `PropertySchema`
type of the source.  Optional fields are `none` when absent.  The `default`
value is opaque to normalization (only passed through), so it is modelled
as a string. -/
structure PropertySchema where
  type : String
  objectType : Option String := none
  property : Option String := none
  optional : Option Bool := none
  indexed : Option Bool := none
  mapTo : Option String := none
  default : Option String := none
deriving Repr, DecidableEq

/-- A raw property definition: either a shorthand string or an explicit
object form (the `PropertySchema | PropertySchemaShorthand` union). -/
inductive RawPropertySchema where
  | shorthand (value : String)
  | explicit (value : PropertySchema)
deriving Repr, DecidableEq

/-- Canonical property record (`CanonicalPropertySchema`).  The fields
`objectType`, `property` and `default` are only present when defined. -/
structure CanonicalPropertySchema where
  name : String
  type : String
  optional : Bool
  indexed : Bool
  mapTo : String
  objectType : Option String := none
  property : Option String := none
  default : Option String := none
deriving Repr, DecidableEq

/-- Raw object definition in mapping form (the `ObjectSchema` type of the
source).  The properties mapping is an insertion-ordered association list,
matching iteration order of a JavaScript object literal. -/
structure ObjectSchema where
  name : String
  primaryKey : Option String := none
  asymmetric : Option Bool := none
  embedded : Option Bool := none
  properties : List (String × RawPropertySchema) := []
deriving Repr, DecidableEq

/-- A class constructor (`RealmObjectConstructor`): only its static
`schema` field is consulted by the normalizer (`none` models an absent
static field). -/
structure RealmObjectConstructor where
  schema : Option ObjectSchema := none
deriving Repr, DecidableEq

/-- Canonical object schema (`CanonicalObjectSchema`), with the optional
non-owning back reference to the originating constructor. -/
structure CanonicalObjectSchema where
  name : String
  primaryKey : Option String
  asymmetric : Bool
  embedded : Bool
  properties : List (String × CanonicalPropertySchema)
  ctor : Option RealmObjectConstructor := none
deriving Repr, DecidableEq

/-- Argument of `normalizeObjectSchema`: a constructor or a plain object
schema (`RealmObjectConstructor | ObjectSchema`). -/
inductive NormalizeArg where
  | ctor (value : RealmObjectConstructor)
  | schema (value : ObjectSchema)
deriving Repr, DecidableEq

/-- JavaScript `s.endsWith(suffix)`: the last `suffix.length` characters of
`s` equal `suffix`. -/
def jsEndsWith (s : String) (suffix : String) : Bool :=
  s.takeRight suffix.length == suffix

/-- The set `PRIMITIVE_TYPES`. -/
def PRIMITIVE_TYPES : List String :=
  ["bool", "int", "float", "double", "decimal128", "objectId", "string", "data", "date",
    "mixed", "uuid"]

/-- The set `COLLECTION_TYPES`. -/
def COLLECTION_TYPES : List String := ["list", "dictionary", "set"]

/-- The record `COLLECTION_SHORTHAND_TO_NAME`, as a partial lookup. -/
def COLLECTION_SHORTHAND_TO_NAME (suffix : String) : Option String :=
  if suffix == "[]" then some "list"
  else if suffix == "\x7b\x7d" then some "dictionary"
  else if suffix == "<>" then some "set"
  else none

/-- The classifier `isPrimitive` (an absent type name is not primitive). -/
def isPrimitive (type : Option String) : Bool :=
  match type with
  | some t => PRIMITIVE_TYPES.contains t
  | none => false

/-- The classifier `isCollection`. -/
def isCollection (type : Option String) : Bool :=
  match type with
  | some t => COLLECTION_TYPES.contains t
  | none => false

/-- The classifier `isUserDefined`: a non-empty name that is neither
primitive, nor a collection keyword, nor `object` / `linkingObjects`
(`!!type` makes the empty string non-user-defined). -/
def isUserDefined (type : Option String) : Bool :=
  match type with
  | none => false
  | some t =>
      !(t == "") &&
        !(isPrimitive (some t) || isCollection (some t) || t == "object" || t == "linkingObjects")

/-- The helper `hasCollectionSuffix`: the last two characters form one of
the three collection suffixes. -/
def hasCollectionSuffix (input : String) : Bool :=
  (COLLECTION_SHORTHAND_TO_NAME (input.takeRight 2)).isSome

/-- Builder of `PropertySchemaParseError` values (the source helper
`propError`). -/
def propError (info : PropertyInfo) (message : String) : SchemaError :=
  .propParse info.objectName info.propertyName message

/-- Builder of `ObjectSchemaParseError` values (the source helper
`objectError`). -/
def objectError (objectName : String) (message : String) : SchemaError :=
  .objectParse objectName message

/-- Collection-suffix step of `normalizePropertySchemaShorthand` (source
lines 191-201): detect and strip a trailing collection suffix, returning
the collection type recorded so far (empty when none) and the remaining
string; rejects an empty element and nested collection suffixes. -/
def stripCollectionSuffix (info : PropertyInfo) (propertySchema : String) :
    Except SchemaError (String × String) :=
  if hasCollectionSuffix propertySchema then
    if (propertySchema.dropRight 2).length = 0 then
      .error (propError info
        ("The element type must be specified (Example: \x27int" ++
          propertySchema.takeRight 2 ++ "\x27)"))
    else if hasCollectionSuffix (propertySchema.dropRight 2) then
      .error (propError info "Nested collections are not supported.")
    else
      .ok ((COLLECTION_SHORTHAND_TO_NAME (propertySchema.takeRight 2)).getD "",
        propertySchema.dropRight 2)
  else
    .ok ("", propertySchema)

/-- Optionality-marker step of `normalizePropertySchemaShorthand` (source
lines 203-217): detect and strip a trailing question mark, rejecting an
empty remainder and a remainder that still carries a collection suffix. -/
def stripOptionalMarker (info : PropertyInfo) (propertySchema : String) :
    Except SchemaError (Option Bool × String) :=
  if jsEndsWith propertySchema "?" then
    if (propertySchema.dropRight 1).length = 0 then
      .error (propError info
        "The type must be specified. (Examples: \x27int?\x27 and \x27int?[]\x27)")
    else if hasCollectionSuffix (propertySchema.dropRight 1) then
      .error (propError info
        ("Collections cannot be optional. To allow elements of the collection to be optional, use \x27?\x27 after the element type. (Examples: \x27int?[]\x27, \x27int?\x7b\x7d\x27, and \x27int?<>\x27)"))
    else
      .ok (some true, propertySchema.dropRight 1)
  else
    .ok (none, propertySchema)

/-- Element-classification step of `normalizePropertySchemaShorthand`
(source lines 219-246): resolve the element string into the final `type`
and `objectType`, rejecting collection keywords and the reserved words
`object` / `linkingObjects` used as element types. -/
def classifyElementType (info : PropertyInfo) (type : String) (propertySchema : String) :
    Except SchemaError (String × Option String) :=
  if isPrimitive (some propertySchema) then
    if isCollection (some type) then
      .ok (type, some propertySchema)
    else
      .ok (propertySchema, none)
  else if isCollection (some propertySchema) then
    .error (propError info
      ("Cannot use the collection name " ++ propertySchema ++
        ". (Examples: \x27int[]\x27 (list), \x27int\x7b\x7d\x27 (dictionary), and \x27int<>\x27 (set))"))
  else if propertySchema == "object" then
    .error (propError info
      "To define a relationship, use either \x27MyObjectType\x27 or \x7b type: \x27object\x27, objectType: \x27MyObjectType\x27 \x7d")
  else if propertySchema == "linkingObjects" then
    .error (propError info
      "To define an inverse relationship, use \x7b type: \x27linkingObjects\x27, objectType: \x27MyObjectType\x27, property: \x27myObjectTypesProperty\x27 \x7d")
  else
    if isCollection (some type) then
      .ok (type, some propertySchema)
    else
      .ok ("object", some propertySchema)

/-- The predicate `optionalIsImplicitlyTrue` (source lines 352-359). -/
def optionalIsImplicitlyTrue (type : String) (objectType : Option String) : Bool :=
  type == "mixed" || objectType == some "mixed" || type == "object" ||
    (type == "dictionary" && isUserDefined objectType)

/-- The predicate `optionalIsImplicitlyFalse` (source lines 366-368). -/
def optionalIsImplicitlyFalse (type : String) (objectType : Option String) : Bool :=
  (type == "list" || type == "set" || type == "linkingObjects") && isUserDefined objectType

/-- Implicit-optionality resolution in the shorthand path (source lines
248-259): force `optional` to `true` / `false` per the implicit rules,
rejecting an explicit marker on an implicitly non-optional property
(`assert(!optional, ...)` passes exactly when `optional` is falsy). -/
def resolveOptionalShorthand (info : PropertyInfo) (type : String) (objectType : Option String)
    (optional : Option Bool) : Except SchemaError (Option Bool) :=
  if optionalIsImplicitlyTrue type objectType then
    .ok (some true)
  else if optionalIsImplicitlyFalse type objectType then
    if optional.getD false then
      .error (propError info
        "User-defined types in lists and sets are always non-optional and cannot be made optional. Remove \x27?\x27 or change the type.")
    else
      .ok (some false)
  else
    .ok optional

/-- The function `normalizePropertySchemaShorthand` (source lines
183-272), assembled from its four blocks. -/
def normalizePropertySchemaShorthand (info : PropertyInfo) (propertySchema : String) :
    Except SchemaError CanonicalPropertySchema :=
  if propertySchema.length = 0 then
    .error (propError info "The type must be specified.")
  else
    match stripCollectionSuffix info propertySchema with
    | .error e => .error e
    | .ok (type0, rest1) =>
      match stripOptionalMarker info rest1 with
      | .error e => .error e
      | .ok (optional0, rest2) =>
        match classifyElementType info type0 rest2 with
        | .error e => .error e
        | .ok (type, objectType) =>
          match resolveOptionalShorthand info type objectType optional0 with
          | .error e => .error e
          | .ok optional =>
            .ok { name := info.propertyName
                  type := type
                  optional := optional.getD false
                  indexed := info.isPrimaryKey
                  mapTo := info.propertyName
                  objectType := objectType }

/-- The check `assertNotUsingShorthand` (source lines 384-403): collect a
trailing collection suffix and a trailing question mark (looked for after
the suffix, if any, has been stripped) and reject when any was found.  An
absent or empty input has no shorthand markers. -/
def assertNotUsingShorthand (input : Option String) (info : PropertyInfo) :
    Except SchemaError Unit :=
  let collectionShorthand : List String :=
    match input with
    | some s => if !(s == "") && hasCollectionSuffix s then [s.takeRight 2] else []
    | none => []
  let rest : Option String :=
    match input with
    | some s => if !(s == "") && hasCollectionSuffix s then some (s.dropRight 2) else some s
    | none => none
  let shorthands : List String :=
    collectionShorthand ++
      (if (rest.map (fun r => jsEndsWith r "?")).getD false then ["?"] else [])
  if shorthands.isEmpty then
    .ok ()
  else
    .error (propError info
      ("Cannot use shorthand \x27" ++ String.intercalate "\x27 and \x27" shorthands ++
        "\x27 in \x27type\x27 or \x27objectType\x27 when defining property objects."))

/-- The per-category checks of `normalizePropertySchemaObject` (source
lines 288-306).  In the `linkingObjects` branch `!!property` makes an
empty string count as absent. -/
def checkTypeCategoriesBranch (info : PropertyInfo) (type : String) (objectType : Option String)
    (property : Option String) : Except SchemaError Unit :=
  if isPrimitive (some type) then
      if objectType == none then .ok ()
      else
        .error (propError info
          ("\x27objectType\x27 cannot be defined when \x27type\x27 is \x27" ++ type ++ "\x27."))
    else if isCollection (some type) then
      if isPrimitive objectType || isUserDefined objectType then .ok ()
      else
        .error (propError info
          ("A " ++ type ++
            " must contain only primitive or user-defined types specified through \x27objectType\x27."))
    else if type == "object" then
      if isUserDefined objectType then .ok ()
      else
        .error (propError info "A user-defined type must be specified through \x27objectType\x27.")
    else if type == "linkingObjects" then
      if !(isUserDefined objectType) then
        .error (propError info "A user-defined type must be specified through \x27objectType\x27.")
      else if (property.getD "") == "" then
        .error (propError info
          "The linking object\x27s property name must be specified through \x27property\x27.")
      else .ok ()
    else
      .error (propError info
        ("If you meant to define a relationship, use \x7b type: \x27object\x27, objectType: \x27" ++
          type ++ "\x27 \x7d or \x7b type: \x27linkingObjects\x27, objectType: \x27" ++ type ++
          "\x27, property: \x27The " ++ type ++ " property\x27 \x7d"))

/-- Sequencing of the category branch with the `property`-only-for-
`linkingObjects` rule (source lines 288-310). -/
def checkTypeCategories (info : PropertyInfo) (type : String) (objectType : Option String)
    (property : Option String) : Except SchemaError Unit :=
  match checkTypeCategoriesBranch info type objectType property with
  | .error e => .error e
  | .ok _ =>
    if !(type == "linkingObjects") then
      if property == none then .ok ()
      else
        .error (propError info
          "\x27property\x27 can only be specified if \x27type\x27 is \x27linkingObjects\x27.")
    else .ok ()

/-- Implicit-optionality resolution in the explicit path (source lines
312-325): an explicit `optional: false` on an implicitly optional
property, or an explicit `optional: true` on an implicitly non-optional
one, is rejected; otherwise the value is forced. -/
def resolveOptionalObject (info : PropertyInfo) (type : String) (objectType : Option String)
    (optional : Option Bool) : Except SchemaError (Option Bool) :=
  if optionalIsImplicitlyTrue type objectType then
    if optional == some false then
      .error (propError info
        ((if type == "mixed" || objectType == some "mixed" then "\x27mixed\x27 types"
          else "User-defined types as standalone objects and in dictionaries") ++
          " are always optional and cannot be made non-optional."))
    else
      .ok (some true)
  else if optionalIsImplicitlyFalse type objectType then
    if optional == some true then
      .error (propError info
        "User-defined types in lists and sets are always non-optional and cannot be made optional.")
    else
      .ok (some false)
  else
    .ok optional

/-- Primary-key indexing rule of `normalizePropertySchemaObject` (source
lines 327-330): on the primary key, an explicit `indexed: false` is
rejected and `indexed` is forced `true`. -/
def resolveIndexed (info : PropertyInfo) (indexed : Option Bool) :
    Except SchemaError (Option Bool) :=
  if info.isPrimaryKey then
    if indexed == some false then
      .error (propError info "Primary keys must always be indexed.")
    else
      .ok (some true)
  else
    .ok indexed

/-- JavaScript `value || fallback` on an optional string (source line 337):
an absent or empty `mapTo` falls back to the property name. -/
def orDefault (value : Option String) (fallback : String) : String :=
  match value with
  | some s => if s == "" then fallback else s
  | none => fallback

/-- The function `normalizePropertySchemaObject` (source lines 279-345),
assembled from its blocks in source order. -/
def normalizePropertySchemaObject (info : PropertyInfo) (propertySchema : PropertySchema) :
    Except SchemaError CanonicalPropertySchema :=
  if propertySchema.type.length = 0 then
    .error (propError info "\x27type\x27 must be specified.")
  else
    match assertNotUsingShorthand (some propertySchema.type) info with
    | .error e => .error e
    | .ok _ =>
      match assertNotUsingShorthand propertySchema.objectType info with
      | .error e => .error e
      | .ok _ =>
        match checkTypeCategories info propertySchema.type propertySchema.objectType
            propertySchema.property with
        | .error e => .error e
        | .ok _ =>
          match resolveOptionalObject info propertySchema.type propertySchema.objectType
              propertySchema.optional with
          | .error e => .error e
          | .ok optional =>
            match resolveIndexed info propertySchema.indexed with
            | .error e => .error e
            | .ok indexed =>
              .ok { name := info.propertyName
                    type := propertySchema.type
                    optional := optional.getD false
                    indexed := indexed.getD false
                    mapTo := orDefault propertySchema.mapTo info.propertyName
                    objectType := propertySchema.objectType
                    property := propertySchema.property
                    default := propertySchema.default }

/-- The dispatcher `normalizePropertySchema` (source lines 169-176). -/
def normalizePropertySchema (info : PropertyInfo) (propertySchema : RawPropertySchema) :
    Except SchemaError CanonicalPropertySchema :=
  match propertySchema with
  | .shorthand s => normalizePropertySchemaShorthand info s
  | .explicit p => normalizePropertySchemaObject info p

/-- The loop `normalizePropertySchemas` (source lines 147-163): normalize
each property in order, fail-fast, with `isPrimaryKey` set exactly when
the property name strictly equals the declared primary key. -/
def normalizePropertySchemas (objectName : String)
    (propertiesSchemas : List (String × RawPropertySchema)) (primaryKey : Option String) :
    Except SchemaError (List (String × CanonicalPropertySchema)) :=
  match propertiesSchemas with
  | [] => .ok []
  | (propertyName, ps) :: rest =>
    match normalizePropertySchema
        { objectName := objectName
          propertyName := propertyName
          isPrimaryKey := primaryKey == some propertyName } ps with
    | .error e => .error e
    | .ok c =>
      match normalizePropertySchemas objectName rest primaryKey with
      | .error e => .error e
      | .ok out => .ok ((propertyName, c) :: out)

/-- JavaScript `Object.prototype.hasOwnProperty.call(properties, key)` on
the properties mapping. -/
def hasPropertyNamed (properties : List (String × RawPropertySchema)) (key : String) : Bool :=
  properties.any (fun p => p.1 == key)

/-- The `primaryKeyFieldIsMissing` flag (source line 125).  Note that the
primary-key-existence check is guarded by JavaScript truthiness of
`primaryKey`, so an empty-string primary key skips it. -/
def primaryKeyFieldIsMissing (arg : ObjectSchema) : Bool :=
  match arg.primaryKey with
  | some pk => !(pk == "") && !(hasPropertyNamed arg.properties pk)
  | none => false

/-- The plain-object branch of `normalizeObjectSchema` (source lines
123-138): object-level checks, then property normalization. -/
def normalizeObjectSchemaPlain (arg : ObjectSchema) : Except SchemaError CanonicalObjectSchema :=
  if arg.name.length = 0 then
    .error (objectError "" "\x27name\x27 must be specified.")
  else
    if primaryKeyFieldIsMissing arg then
      .error (objectError arg.name
        ("\x27" ++ arg.primaryKey.getD "" ++
          "\x27 is set as the primary key field but was not found in \x27properties\x27."))
    else if (arg.asymmetric.getD false) && (arg.embedded.getD false) then
      .error (objectError arg.name "Cannot be both asymmetric and embedded.")
    else
      match normalizePropertySchemas arg.name arg.properties arg.primaryKey with
      | .error e => .error e
      | .ok props =>
        .ok { name := arg.name
              primaryKey := arg.primaryKey
              asymmetric := arg.asymmetric.getD false
              embedded := arg.embedded.getD false
              properties := props }

/-- The function `normalizeObjectSchema` (source lines 101-139): unwrap a
constructor (requiring its static `schema` field) and record the
constructor on the canonical result. -/
def normalizeObjectSchema (arg : NormalizeArg) : Except SchemaError CanonicalObjectSchema :=
  match arg with
  | .ctor c =>
    match c.schema with
    | none => .error (.schemaParse "A static schema must be specified on this class.")
    | some s =>
      match normalizeObjectSchemaPlain s with
      | .error e => .error e
      | .ok objectSchema => .ok { objectSchema with ctor := some c }
  | .schema s => normalizeObjectSchemaPlain s

/-- The entry point `normalizeRealmSchema` (source lines 91-95). -/
def normalizeRealmSchema (realmSchema : List NormalizeArg) :
    Except SchemaError (List CanonicalObjectSchema) :=
  match realmSchema with
  | [] => .ok []
  | arg :: rest =>
    match normalizeObjectSchema arg with
    | .error e => .error e
    | .ok c =>
      match normalizeRealmSchema rest with
      | .error e => .error e
      | .ok cs => .ok (c :: cs)

/-- Turn a canonical property record back into an explicit raw property
definition carrying the same data (the raw form used by the idempotence
property of the specification). -/
def rawOfCanonicalProperty (c : CanonicalPropertySchema) : PropertySchema :=
  { type := c.type, objectType := c.objectType, property := c.property,
    optional := some c.optional, indexed := some c.indexed,
    mapTo := some c.mapTo, default := c.default }

/-- Turn a canonical object schema back into a raw object definition with
the same name, primaryKey, asymmetric and embedded values, using its
canonical property records as the raw property definitions. -/
def rawOfCanonicalObject (c : CanonicalObjectSchema) : ObjectSchema :=
  { name := c.name, primaryKey := c.primaryKey,
    asymmetric := some c.asymmetric, embedded := some c.embedded,
    properties := c.properties.map
      (fun p => (p.1, RawPropertySchema.explicit (rawOfCanonicalProperty p.2))) }

/-- A canonical property record whose `objectType`, when present, does not
end with the optionality marker.  The shorthand parser can leak a trailing
question mark into a user-defined `objectType` (e.g. from `x??`), and such
records do not survive re-normalization in explicit form. -/
def objectTypeMarkerFree (c : CanonicalPropertySchema) : Bool :=
  match c.objectType with
  | some e => !(jsEndsWith e "?")
  | none => true

/-- Sample raw object definition (shorthand whose element type ends in a
question mark) whose canonical form does not survive the canonical-to-raw
round trip. -/
def markerLeakObject : ObjectSchema :=
  { name := "A", properties := [("p", .shorthand "x??")] }

/-- The canonical form of `markerLeakObject`: the shorthand parser strips
only one trailing question mark, so the user-defined `objectType` keeps
the other one. -/
def markerLeakCanonical : CanonicalObjectSchema :=
  { name := "A", primaryKey := none, asymmetric := false, embedded := false,
    properties := [("p",
      { name := "p", type := "object", optional := true, indexed := false, mapTo := "p",
        objectType := some "x?" })] }

/-- Sample raw object definition exercising primary key, shorthand,
relationship, collection and linkingObjects properties. -/
def sampleObject : ObjectSchema :=
  { name := "Person", primaryKey := some "id",
    properties := [("id", .shorthand "int"), ("friend", .shorthand "MyClass"),
      ("scores", .shorthand "int?[]"),
      ("owners", .explicit
        { type := "linkingObjects", objectType := some "Owner", property := some "pet",
          mapTo := some "the_owners" })] }

/-- The canonical form of `sampleObject`. -/
def sampleCanonical : CanonicalObjectSchema :=
  { name := "Person", primaryKey := some "id", asymmetric := false, embedded := false,
    properties := [("id",
        { name := "id", type := "int", optional := false, indexed := true, mapTo := "id" }),
      ("friend",
        { name := "friend", type := "object", optional := true, indexed := false,
          mapTo := "friend", objectType := some "MyClass" }),
      ("scores",
        { name := "scores", type := "list", optional := true, indexed := false,
          mapTo := "scores", objectType := some "int" }),
      ("owners",
        { name := "owners", type := "linkingObjects", optional := false, indexed := false,
          mapTo := "the_owners", objectType := some "Owner", property := some "pet" })] }

/-! ### Helper lemmas -/

/-- A string of length zero is the empty string. -/
theorem string_length_eq_zero (s : String) (h : s.length = 0) : s = "" := by
  cases s with
  | mk data =>
    simp [String.length] at h
    simp [h]

/-- Enumeration of the collection keywords. -/
theorem isCollection_elim (t : String) (h : isCollection (some t) = true) :
    t = "list" ∨ t = "dictionary" ∨ t = "set" := by
  simp [isCollection, COLLECTION_TYPES] at h
  tauto

/-- Enumeration of the primitive type names. -/
theorem isPrimitive_elim (t : String) (h : isPrimitive (some t) = true) :
    t = "bool" ∨ t = "int" ∨ t = "float" ∨ t = "double" ∨ t = "decimal128" ∨
      t = "objectId" ∨ t = "string" ∨ t = "data" ∨ t = "date" ∨ t = "mixed" ∨ t = "uuid" := by
  simp [isPrimitive, PRIMITIVE_TYPES] at h
  tauto

/-- The two implicit-optionality predicates never hold together. -/
theorem implicit_exclusive (t : String) (ot : Option String)
    (h : optionalIsImplicitlyTrue t ot = true) : optionalIsImplicitlyFalse t ot = false := by
  simp only [optionalIsImplicitlyTrue, Bool.or_eq_true, Bool.and_eq_true, beq_iff_eq] at h
  rcases h with ((h | h) | h) | ⟨h, hu⟩
  · subst h; simp [optionalIsImplicitlyFalse]
  · subst h; simp [optionalIsImplicitlyFalse, isUserDefined, isPrimitive, PRIMITIVE_TYPES]
  · subst h; simp [optionalIsImplicitlyFalse]
  · subst h; simp [optionalIsImplicitlyFalse]

/-- Success of `resolveOptionalShorthand` forces the value the implicit
rules demand. -/
theorem resolveOptionalShorthand_ok_spec (info : PropertyInfo) (t : String)
    (ot : Option String) (o o' : Option Bool)
    (h : resolveOptionalShorthand info t ot o = .ok o') :
    (optionalIsImplicitlyTrue t ot = true → o' = some true) ∧
      (optionalIsImplicitlyFalse t ot = true → o' = some false) := by
  unfold resolveOptionalShorthand at h
  split at h
  · rename_i htrue
    refine ⟨fun _ => by injection h with h; exact h.symm, fun hfalse => ?_⟩
    rw [implicit_exclusive t ot htrue] at hfalse
    exact Bool.noConfusion hfalse
  · rename_i htrue
    split at h
    · rename_i hfalse
      split at h
      · exact Except.noConfusion h
      · exact ⟨fun ht => absurd ht htrue, fun _ => by injection h with h; exact h.symm⟩
    · rename_i hfalse
      exact ⟨fun ht => absurd ht htrue, fun hf => absurd hf hfalse⟩

/-- Success of `resolveOptionalObject` forces the value the implicit rules
demand. -/
theorem resolveOptionalObject_ok_spec (info : PropertyInfo) (t : String)
    (ot : Option String) (o o' : Option Bool)
    (h : resolveOptionalObject info t ot o = .ok o') :
    (optionalIsImplicitlyTrue t ot = true → o' = some true) ∧
      (optionalIsImplicitlyFalse t ot = true → o' = some false) := by
  unfold resolveOptionalObject at h
  split at h
  · rename_i htrue
    split at h
    · exact Except.noConfusion h
    · refine ⟨fun _ => by injection h with h; exact h.symm, fun hfalse => ?_⟩
      rw [implicit_exclusive t ot htrue] at hfalse
      exact Bool.noConfusion hfalse
  · rename_i htrue
    split at h
    · rename_i hfalse
      split at h
      · exact Except.noConfusion h
      · exact ⟨fun ht => absurd ht htrue, fun _ => by injection h with h; exact h.symm⟩
    · rename_i hfalse
      exact ⟨fun ht => absurd ht htrue, fun hf => absurd hf hfalse⟩

/-- Elimination principle for a successful shorthand normalization: the
result is assembled from the outcomes of the four parsing blocks. -/
theorem normalizePropertySchemaShorthand_ok (info : PropertyInfo) (s : String)
    (c : CanonicalPropertySchema) (h : normalizePropertySchemaShorthand info s = .ok c) :
    s.length ≠ 0 ∧
      ∃ type0 rest1 optional0 rest2 type objectType optional,
        stripCollectionSuffix info s = .ok (type0, rest1) ∧
        stripOptionalMarker info rest1 = .ok (optional0, rest2) ∧
        classifyElementType info type0 rest2 = .ok (type, objectType) ∧
        resolveOptionalShorthand info type objectType optional0 = .ok optional ∧
        c = { name := info.propertyName, type := type, optional := optional.getD false,
              indexed := info.isPrimaryKey, mapTo := info.propertyName,
              objectType := objectType } := by
  unfold normalizePropertySchemaShorthand at h
  split at h
  · exact Except.noConfusion h
  rename_i hlen
  refine ⟨hlen, ?_⟩
  split at h
  · exact Except.noConfusion h
  rename_i type0 rest1 h1
  split at h
  · exact Except.noConfusion h
  rename_i optional0 rest2 h2
  split at h
  · exact Except.noConfusion h
  rename_i type objectType h3
  split at h
  · exact Except.noConfusion h
  rename_i optional h4
  injection h with h
  exact ⟨type0, rest1, optional0, rest2, type, objectType, optional, h1, h2, h3, h4, h.symm⟩

/-- Elimination principle for a successful explicit-form normalization. -/
theorem normalizePropertySchemaObject_ok (info : PropertyInfo) (ps : PropertySchema)
    (c : CanonicalPropertySchema) (h : normalizePropertySchemaObject info ps = .ok c) :
    ps.type.length ≠ 0 ∧
      assertNotUsingShorthand (some ps.type) info = .ok () ∧
      assertNotUsingShorthand ps.objectType info = .ok () ∧
      checkTypeCategories info ps.type ps.objectType ps.property = .ok () ∧
      ∃ optional indexed,
        resolveOptionalObject info ps.type ps.objectType ps.optional = .ok optional ∧
        resolveIndexed info ps.indexed = .ok indexed ∧
        c = { name := info.propertyName, type := ps.type, optional := optional.getD false,
              indexed := indexed.getD false, mapTo := orDefault ps.mapTo info.propertyName,
              objectType := ps.objectType, property := ps.property,
              default := ps.default } := by
  unfold normalizePropertySchemaObject at h
  split at h
  · exact Except.noConfusion h
  rename_i hlen
  refine ⟨hlen, ?_⟩
  split at h
  · exact Except.noConfusion h
  rename_i u1 h1
  split at h
  · exact Except.noConfusion h
  rename_i u2 h2
  split at h
  · exact Except.noConfusion h
  rename_i u3 h3
  split at h
  · exact Except.noConfusion h
  rename_i optional h4
  split at h
  · exact Except.noConfusion h
  rename_i indexed h5
  injection h with h
  cases u1; cases u2; cases u3
  exact ⟨h1, h2, h3, ⟨optional, indexed, h4, h5, h.symm⟩⟩

/-! ### Claim theorems -/

/-- C1: the implicit-optionality predicates hold exactly as specified, are
mutually exclusive, and every successful property normalization (shorthand
or explicit) has its `optional` flag equal to the forced value whenever
either predicate holds of the resolved type/objectType pair. -/
theorem implicit_optionality_characterization :
    (∀ (type : String) (objectType : Option String),
      (optionalIsImplicitlyTrue type objectType = true ↔
        (type = "mixed" ∨ objectType = some "mixed" ∨ type = "object" ∨
          (type = "dictionary" ∧ isUserDefined objectType = true))) ∧
      (optionalIsImplicitlyFalse type objectType = true ↔
        ((type = "list" ∨ type = "set" ∨ type = "linkingObjects") ∧
          isUserDefined objectType = true)) ∧
      ¬(optionalIsImplicitlyTrue type objectType = true ∧
          optionalIsImplicitlyFalse type objectType = true)) ∧
    (∀ (info : PropertyInfo) (ps : RawPropertySchema) (c : CanonicalPropertySchema),
      normalizePropertySchema info ps = .ok c →
        (optionalIsImplicitlyTrue c.type c.objectType = true → c.optional = true) ∧
        (optionalIsImplicitlyFalse c.type c.objectType = true → c.optional = false)) := by
  constructor
  · intro type objectType
    refine ⟨?_, ?_, ?_⟩
    · simp only [optionalIsImplicitlyTrue, Bool.or_eq_true, Bool.and_eq_true, beq_iff_eq]
      tauto
    · simp only [optionalIsImplicitlyFalse, Bool.or_eq_true, Bool.and_eq_true, beq_iff_eq]
      tauto
    · rintro ⟨h1, h2⟩
      rw [implicit_exclusive type objectType h1] at h2
      exact Bool.noConfusion h2
  · intro info ps c h
    cases ps with
    | shorthand s =>
      obtain ⟨-, type0, rest1, optional0, rest2, type, objectType, optional,
        -, -, -, h4, hc⟩ := normalizePropertySchemaShorthand_ok info s c h
      subst hc
      have hspec := resolveOptionalShorthand_ok_spec info type objectType optional0 optional h4
      constructor
      · intro ht; rw [hspec.1 ht]; rfl
      · intro hf; rw [hspec.2 hf]; rfl
    | explicit p =>
      obtain ⟨-, -, -, -, optional, indexed, h4, -, hc⟩ :=
        normalizePropertySchemaObject_ok info p c h
      subst hc
      have hspec := resolveOptionalObject_ok_spec info p.type p.objectType p.optional optional h4
      constructor
      · intro ht; rw [hspec.1 ht]; rfl
      · intro hf; rw [hspec.2 hf]; rfl

/-- C1 witness: the forced-value part applied to the concrete shorthand
normalization of a user-defined type name. -/
theorem implicit_optionality_characterization_witness :
    optionalIsImplicitlyTrue "object" (some "MyClass") = true ∧
      ({ name := "p", type := "object", optional := true, indexed := false, mapTo := "p",
         objectType := some "MyClass" } : CanonicalPropertySchema).optional = true := by
  refine ⟨by decide, ?_⟩
  exact (implicit_optionality_characterization.2 ⟨"Obj", "p", false⟩ (.shorthand "MyClass")
    { name := "p", type := "object", optional := true, indexed := false, mapTo := "p",
      objectType := some "MyClass" } rfl).1 (by decide)

/-- C2: shorthand round-trip scenarios for a non-primary-key property:
`int`, `int?`, `int?[]` and a user-defined class name normalize to exactly
the canonical records of the specification. -/
theorem shorthand_roundtrip_scenarios (objectName propertyName : String) :
    normalizePropertySchemaShorthand ⟨objectName, propertyName, false⟩ "int" =
      .ok { name := propertyName, type := "int", optional := false, indexed := false,
            mapTo := propertyName } ∧
    normalizePropertySchemaShorthand ⟨objectName, propertyName, false⟩ "int?" =
      .ok { name := propertyName, type := "int", optional := true, indexed := false,
            mapTo := propertyName } ∧
    normalizePropertySchemaShorthand ⟨objectName, propertyName, false⟩ "int?[]" =
      .ok { name := propertyName, type := "list", optional := true, indexed := false,
            mapTo := propertyName, objectType := some "int" } ∧
    normalizePropertySchemaShorthand ⟨objectName, propertyName, false⟩ "MyClass" =
      .ok { name := propertyName, type := "object", optional := true, indexed := false,
            mapTo := propertyName, objectType := some "MyClass" } :=
  ⟨rfl, rfl, rfl, rfl⟩

/-- C4: any shorthand string carrying two stacked collection suffixes is
rejected with the nested-collections error. -/
theorem nested_collections_rejected (info : PropertyInfo) (s : String)
    (h1 : hasCollectionSuffix s = true) (h2 : hasCollectionSuffix (s.dropRight 2) = true) :
    normalizePropertySchemaShorthand info s =
      .error (propError info "Nested collections are not supported.") := by
  have hne : s.length ≠ 0 := by
    intro h0
    rw [string_length_eq_zero s h0] at h1
    exact absurd h1 (by decide)
  have hr : (s.dropRight 2).length ≠ 0 := by
    intro h0
    rw [string_length_eq_zero _ h0] at h2
    exact absurd h2 (by decide)
  simp [normalizePropertySchemaShorthand, stripCollectionSuffix, h1, h2, hne, hr]

/-- On the primary key, a successful `resolveIndexed` always returns
`some true`. -/
theorem resolveIndexed_ok_primary (info : PropertyInfo) (i i' : Option Bool)
    (hpk : info.isPrimaryKey = true) (h : resolveIndexed info i = .ok i') : i' = some true := by
  unfold resolveIndexed at h
  split at h
  · split at h
    · exact Except.noConfusion h
    · injection h with h
      exact h.symm
  · rename_i hnpk
    rw [hpk] at hnpk
    exact absurd rfl hnpk

/-- Success of the category checks at type `linkingObjects` forces a
user-defined `objectType` and a supplied `property`. -/
theorem checkTypeCategories_ok_linking (info : PropertyInfo) (ot p : Option String)
    (h : checkTypeCategories info "linkingObjects" ot p = .ok ()) :
    isUserDefined ot = true ∧ p ≠ none := by
  unfold checkTypeCategories checkTypeCategoriesBranch at h
  simp only [show isPrimitive (some "linkingObjects") = false from rfl,
    show isCollection (some "linkingObjects") = false from rfl,
    show (("linkingObjects" : String) == "object") = false from rfl,
    show (("linkingObjects" : String) == "linkingObjects") = true from rfl,
    Bool.false_eq_true, if_false, if_true, Bool.not_true] at h
  split at h
  · exact Except.noConfusion h
  · rename_i u heq
    split at heq
    · exact Except.noConfusion heq
    · rename_i hud
      split at heq
      · exact Except.noConfusion heq
      · rename_i hprop
        refine ⟨by simpa using hud, ?_⟩
        intro hnone
        rw [hnone] at hprop
        exact hprop (by decide)

/-- Success of the category checks at any type other than
`linkingObjects` forces `property` to be absent. -/
theorem checkTypeCategories_ok_not_linking (info : PropertyInfo) (t : String)
    (ot p : Option String) (ht : (t == "linkingObjects") = false)
    (h : checkTypeCategories info t ot p = .ok ()) : p = none := by
  unfold checkTypeCategories at h
  split at h
  · exact Except.noConfusion h
  · rw [ht] at h
    simp only [Bool.not_false, if_true] at h
    split at h
    · rename_i hp
      exact eq_of_beq hp
    · exact Except.noConfusion h

/-- C4 witness: the doubly-suffixed shorthand `int[][]` is rejected. -/
theorem nested_collections_rejected_witness :
    normalizePropertySchemaShorthand ⟨"Obj", "p", false⟩ "int[][]" =
      .error (propError ⟨"Obj", "p", false⟩ "Nested collections are not supported.") :=
  nested_collections_rejected ⟨"Obj", "p", false⟩ "int[][]" (by decide) (by decide)

/-- C3: on the declared primary key, every successful normalization has
`indexed = true`, and in explicit object form an explicit
`indexed: false` is always rejected. -/
theorem primary_key_forces_indexed (info : PropertyInfo) (hpk : info.isPrimaryKey = true) :
    (∀ (ps : RawPropertySchema) (c : CanonicalPropertySchema),
      normalizePropertySchema info ps = .ok c → c.indexed = true) ∧
    (∀ ps : PropertySchema, ps.indexed = some false →
      ∃ e, normalizePropertySchema info (.explicit ps) = .error e) := by
  constructor
  · intro ps c h
    cases ps with
    | shorthand s =>
      obtain ⟨-, t0, r1, o0, r2, ty, ot, o, -, -, -, -, hc⟩ :=
        normalizePropertySchemaShorthand_ok info s c h
      subst hc
      exact hpk
    | explicit p =>
      obtain ⟨-, -, -, -, o, i, -, h5, hc⟩ := normalizePropertySchemaObject_ok info p c h
      subst hc
      have hi := resolveIndexed_ok_primary info p.indexed i hpk h5
      simp [hi]
  · intro ps hidx
    cases hres : normalizePropertySchemaObject info ps with
    | error e => exact ⟨e, hres⟩
    | ok c =>
      obtain ⟨-, -, -, -, o, i, -, h5, -⟩ := normalizePropertySchemaObject_ok info ps c hres
      rw [hidx] at h5
      revert h5
      simp [resolveIndexed, hpk]

/-- C3 witness: the primary key `id` declared as shorthand `int` comes
out indexed. -/
theorem primary_key_forces_indexed_witness :
    ({ name := "id", type := "int", optional := false, indexed := true, mapTo := "id" } :
      CanonicalPropertySchema).indexed = true :=
  (primary_key_forces_indexed ⟨"Obj", "id", true⟩ rfl).1 (.shorthand "int")
    { name := "id", type := "int", optional := false, indexed := true, mapTo := "id" } rfl

/-- C6: in explicit object form, a successful `linkingObjects` property
has a user-defined `objectType` and a supplied `property`, and supplying
`property` with any other type always fails. -/
theorem property_field_requires_linking :
    (∀ (info : PropertyInfo) (ps : PropertySchema) (c : CanonicalPropertySchema),
      ps.type = "linkingObjects" → normalizePropertySchemaObject info ps = .ok c →
        isUserDefined ps.objectType = true ∧ ps.property ≠ none) ∧
    (∀ (info : PropertyInfo) (ps : PropertySchema),
      ps.type ≠ "linkingObjects" → ps.property ≠ none →
        ∃ e, normalizePropertySchemaObject info ps = .error e) := by
  constructor
  · intro info ps c ht h
    obtain ⟨-, -, -, h3, -⟩ := normalizePropertySchemaObject_ok info ps c h
    rw [ht] at h3
    exact checkTypeCategories_ok_linking info ps.objectType ps.property h3
  · intro info ps ht hp
    cases hres : normalizePropertySchemaObject info ps with
    | error e => exact ⟨e, rfl⟩
    | ok c =>
      obtain ⟨-, -, -, h3, -⟩ := normalizePropertySchemaObject_ok info ps c hres
      have hb : (ps.type == "linkingObjects") = false := beq_eq_false_iff_ne.mpr ht
      exact absurd
        (checkTypeCategories_ok_not_linking info ps.type ps.objectType ps.property hb h3) hp

/-- C6 witness: a well-formed `linkingObjects` property normalizes and
satisfies both conclusions. -/
theorem property_field_requires_linking_witness :
    isUserDefined (some "MyClass") = true ∧ (some "owner" : Option String) ≠ none :=
  property_field_requires_linking.1 ⟨"Obj", "p", false⟩
    { type := "linkingObjects", objectType := some "MyClass", property := some "owner" }
    { name := "p", type := "linkingObjects", optional := false, indexed := false, mapTo := "p",
      objectType := some "MyClass", property := some "owner" } rfl rfl

/-- C9 amended: the canonical storage name equals a supplied non-empty
`mapTo` value and falls back to the property name when `mapTo` is absent
or the empty string (JavaScript `||` treats the empty string as falsy). -/
theorem mapTo_resolution (info : PropertyInfo) (ps : PropertySchema)
    (c : CanonicalPropertySchema) (h : normalizePropertySchemaObject info ps = .ok c) :
    (∀ m, ps.mapTo = some m → m ≠ "" → c.mapTo = m) ∧
    ((ps.mapTo = none ∨ ps.mapTo = some "") → c.mapTo = info.propertyName) := by
  obtain ⟨-, -, -, -, o, i, -, -, hc⟩ := normalizePropertySchemaObject_ok info ps c h
  subst hc
  constructor
  · intro m hm hne
    simp [orDefault, hm, hne]
  · rintro (hm | hm) <;> simp [orDefault, hm]

/-- C9 witness: a supplied non-empty `mapTo` is preserved. -/
theorem mapTo_resolution_witness :
    ({ name := "p", type := "int", optional := false, indexed := false, mapTo := "storage" } :
      CanonicalPropertySchema).mapTo = "storage" :=
  (mapTo_resolution ⟨"Obj", "p", false⟩ { type := "int", mapTo := some "storage" }
    { name := "p", type := "int", optional := false, indexed := false, mapTo := "storage" }
    rfl).1 "storage" rfl (by decide)

/-- C9 counterexample: a supplied empty `mapTo` is not preserved — the
canonical storage name falls back to the property name. -/
theorem mapTo_empty_not_preserved :
    normalizePropertySchemaObject ⟨"Obj", "p", false⟩ { type := "int", mapTo := some "" } =
      .ok { name := "p", type := "int", optional := false, indexed := false, mapTo := "p" } ∧
    ¬("p" : String) = "" := ⟨rfl, by decide⟩

/-- Feeding an already-recorded optionality marker into
`resolveOptionalShorthand` can only succeed with the marker kept. -/
theorem resolveOptionalShorthand_some_true (info : PropertyInfo) (t : String)
    (ot : Option String) (o' : Option Bool)
    (h : resolveOptionalShorthand info t ot (some true) = .ok o') : o' = some true := by
  unfold resolveOptionalShorthand at h
  split at h
  · injection h with h
    exact h.symm
  · split at h
    · split at h
      · exact Except.noConfusion h
      · rename_i hcond
        simp at hcond
    · injection h with h
      exact h.symm

/-- C5 amended: when the string remaining after the collection-suffix step
ends with a question mark, the parser strips it (recording optionality),
rejects if the remainder is then empty, rejects if the post-strip
remainder itself ends with a collection suffix, and otherwise any overall
success carries `optional = true`.  A collection kind recorded by the
earlier step does not by itself cause rejection. -/
theorem optional_marker_step (info : PropertyInfo) (s0 ty rest1 : String)
    (h0 : s0.length ≠ 0)
    (h1 : stripCollectionSuffix info s0 = .ok (ty, rest1))
    (h2 : jsEndsWith rest1 "?" = true) :
    ((rest1.dropRight 1).length = 0 →
      normalizePropertySchemaShorthand info s0 =
        .error (propError info
          "The type must be specified. (Examples: \x27int?\x27 and \x27int?[]\x27)")) ∧
    (hasCollectionSuffix (rest1.dropRight 1) = true →
      normalizePropertySchemaShorthand info s0 =
        .error (propError info
          ("Collections cannot be optional. To allow elements of the collection to be optional, use \x27?\x27 after the element type. (Examples: \x27int?[]\x27, \x27int?\x7b\x7d\x27, and \x27int?<>\x27)"))) ∧
    (∀ c, normalizePropertySchemaShorthand info s0 = .ok c → c.optional = true) := by
  refine ⟨?_, ?_, ?_⟩
  · intro hempty
    simp [normalizePropertySchemaShorthand, stripOptionalMarker, h0, h1, h2, hempty]
  · intro hsuf
    have hne : (rest1.dropRight 1).length ≠ 0 := by
      intro hz
      rw [string_length_eq_zero _ hz] at hsuf
      exact absurd hsuf (by decide)
    simp [normalizePropertySchemaShorthand, stripOptionalMarker, h0, h1, h2, hne, hsuf]
  · intro c hc
    obtain ⟨-, t0, r1, o0, r2, ty', ot, o, e1, e2, e3, e4, hcrec⟩ :=
      normalizePropertySchemaShorthand_ok info s0 c hc
    rw [h1] at e1
    injection e1 with e1
    injection e1 with hty hr
    subst hty
    subst hr
    unfold stripOptionalMarker at e2
    rw [if_pos h2] at e2
    split at e2
    · exact Except.noConfusion e2
    split at e2
    · exact Except.noConfusion e2
    injection e2 with e2
    injection e2 with ho hr2
    rw [← ho] at e4
    have hopt := resolveOptionalShorthand_some_true info ty' ot o e4
    subst hcrec
    simp [hopt]

/-- C5 witness: on the accepted shorthand `int?[]` the optionality marker
on the element yields `optional = true`. -/
theorem optional_marker_step_witness :
    ({ name := "p", type := "list", optional := true, indexed := false, mapTo := "p",
       objectType := some "int" } : CanonicalPropertySchema).optional = true :=
  (optional_marker_step ⟨"Obj", "p", false⟩ "int?[]" "list" "int?" (by decide) rfl
      (by decide)).2.2
    { name := "p", type := "list", optional := true, indexed := false, mapTo := "p",
      objectType := some "int" } rfl

/-- C5 counterexample: on `int?[]` a collection kind (list) is recorded by
the collection-suffix step and the remaining string `int?` ends with the
optionality marker, yet the parser accepts the input instead of rejecting
it as the claim demands. -/
theorem optional_marker_after_collection_accepted :
    stripCollectionSuffix ⟨"Obj", "p", false⟩ "int?[]" = .ok ("list", "int?") ∧
    jsEndsWith "int?" "?" = true ∧
    normalizePropertySchemaShorthand ⟨"Obj", "p", false⟩ "int?[]" =
      .ok { name := "p", type := "list", optional := true, indexed := false, mapTo := "p",
            objectType := some "int" } := ⟨rfl, by decide, rfl⟩

/-- C7 amended: object-level validation of the plain mapping form: an
empty name, a declared non-empty primary key naming an absent property,
and simultaneously-true `asymmetric` and `embedded` each raise the
corresponding object-schema error, in that order; otherwise the result is
exactly the per-property normalization assembled into the canonical
object schema. -/
theorem object_level_checks (o : ObjectSchema) :
    (o.name.length = 0 →
      normalizeObjectSchema (.schema o) =
        .error (objectError "" "\x27name\x27 must be specified.")) ∧
    (o.name.length ≠ 0 → primaryKeyFieldIsMissing o = true →
      normalizeObjectSchema (.schema o) =
        .error (objectError o.name
          ("\x27" ++ o.primaryKey.getD "" ++
            "\x27 is set as the primary key field but was not found in \x27properties\x27."))) ∧
    (o.name.length ≠ 0 → primaryKeyFieldIsMissing o = false →
      o.asymmetric = some true → o.embedded = some true →
      normalizeObjectSchema (.schema o) =
        .error (objectError o.name "Cannot be both asymmetric and embedded.")) ∧
    (o.name.length ≠ 0 → primaryKeyFieldIsMissing o = false →
      ¬(o.asymmetric = some true ∧ o.embedded = some true) →
      normalizeObjectSchema (.schema o) =
        (normalizePropertySchemas o.name o.properties o.primaryKey).map
          (fun props =>
            { name := o.name, primaryKey := o.primaryKey,
              asymmetric := o.asymmetric.getD false, embedded := o.embedded.getD false,
              properties := props })) := by
  refine ⟨?_, ?_, ?_, ?_⟩
  · intro hname
    simp [normalizeObjectSchema, normalizeObjectSchemaPlain, hname]
  · intro hname hpk
    simp [normalizeObjectSchema, normalizeObjectSchemaPlain, hname, hpk]
  · intro hname hpk ha hb
    simp [normalizeObjectSchema, normalizeObjectSchemaPlain, hname, hpk, ha, hb]
  · intro hname hpk hab
    have hcond : (o.asymmetric.getD false && o.embedded.getD false) = false := by
      cases ha : o.asymmetric with
      | none => simp
      | some a =>
        cases hb : o.embedded with
        | none => simp
        | some b =>
          cases a
          · simp
          · cases b
            · simp
            · exact absurd ⟨ha, hb⟩ hab
    cases hnps : normalizePropertySchemas o.name o.properties o.primaryKey with
    | error e =>
      simp [normalizeObjectSchema, normalizeObjectSchemaPlain, hname, hpk, hcond, hnps,
        Except.map]
    | ok props =>
      simp [normalizeObjectSchema, normalizeObjectSchemaPlain, hname, hpk, hcond, hnps,
        Except.map]

/-- C7 witness: a declared non-empty primary key that is absent from the
properties mapping raises the object-schema error. -/
theorem object_level_checks_witness :
    normalizeObjectSchema
        (.schema
          { name := "A", primaryKey := some "missing",
            properties := [("x", RawPropertySchema.shorthand "int")] }) =
      .error (objectError "A"
        "\x27missing\x27 is set as the primary key field but was not found in \x27properties\x27.") :=
  (object_level_checks
    { name := "A", primaryKey := some "missing",
      properties := [("x", RawPropertySchema.shorthand "int")] }).2.1 (by decide) (by decide)

/-- C7 counterexample: an empty-string primary key is declared and names a
property absent from the mapping, yet normalization succeeds because the
JavaScript truthiness guard skips the existence check. -/
theorem empty_primary_key_not_checked :
    primaryKeyFieldIsMissing
        { name := "A", primaryKey := some "",
          properties := [("x", RawPropertySchema.shorthand "int")] } = false ∧
    hasPropertyNamed [("x", RawPropertySchema.shorthand "int")] "" = false ∧
    normalizeObjectSchema
        (.schema
          { name := "A", primaryKey := some "",
            properties := [("x", .shorthand "int")] }) =
      .ok { name := "A", primaryKey := some "", asymmetric := false, embedded := false,
            properties := [("x",
              { name := "x", type := "int", optional := false, indexed := false,
                mapTo := "x" })] } := ⟨rfl, rfl, rfl⟩

/-- C10: a constructor without a static `schema` is rejected with the
dedicated `SchemaParseError`, and one with a static schema normalizes to
that schema's canonical form with the constructor recorded on it. -/
theorem constructor_static_schema (c : RealmObjectConstructor) :
    (c.schema = none →
      normalizeObjectSchema (.ctor c) =
        .error (.schemaParse "A static schema must be specified on this class.")) ∧
    (∀ s, c.schema = some s →
      normalizeObjectSchema (.ctor c) =
        (normalizeObjectSchema (.schema s)).map (fun o => { o with ctor := some c })) := by
  constructor
  · intro h
    simp [normalizeObjectSchema, h]
  · intro s h
    simp only [normalizeObjectSchema, h]
    cases hn : normalizeObjectSchemaPlain s <;> simp [Except.map]

/-- C10 witness: a constructor without a static schema raises exactly the
specified error. -/
theorem constructor_static_schema_witness :
    normalizeObjectSchema (.ctor ⟨none⟩) =
      .error (.schemaParse "A static schema must be specified on this class.") :=
  (constructor_static_schema ⟨none⟩).1 rfl

/-- Success of the collection-suffix step leaves a non-empty remainder
with no collection suffix. -/
theorem stripCollectionSuffix_ok_facts (info : PropertyInfo) (s t r : String)
    (h0 : s.length ≠ 0) (h : stripCollectionSuffix info s = .ok (t, r)) :
    hasCollectionSuffix r = false ∧ r.length ≠ 0 := by
  unfold stripCollectionSuffix at h
  split at h
  · split at h
    · exact Except.noConfusion h
    split at h
    · exact Except.noConfusion h
    rename_i hemp hnest
    injection h with h
    injection h with ht hr
    subst hr
    exact ⟨by simpa using hnest, hemp⟩
  · rename_i hno
    injection h with h
    injection h with ht hr
    subst hr
    exact ⟨by simpa using hno, h0⟩

/-- Success of the optionality-marker step preserves suffix-freeness and
non-emptiness of the remainder. -/
theorem stripOptionalMarker_ok_facts (info : PropertyInfo) (s : String) (o : Option Bool)
    (r : String) (hc : hasCollectionSuffix s = false) (h0 : s.length ≠ 0)
    (h : stripOptionalMarker info s = .ok (o, r)) :
    hasCollectionSuffix r = false ∧ r.length ≠ 0 := by
  unfold stripOptionalMarker at h
  split at h
  · split at h
    · exact Except.noConfusion h
    split at h
    · exact Except.noConfusion h
    rename_i hemp hsuf
    injection h with h
    injection h with ho hr
    subst hr
    exact ⟨by simpa using hsuf, hemp⟩
  · injection h with h
    injection h with ho hr
    subst hr
    exact ⟨hc, h0⟩

/-- Case analysis of a successful element classification. -/
theorem classifyElementType_ok_cases (info : PropertyInfo) (t0 e ty : String)
    (ot : Option String) (he : e.length ≠ 0)
    (h : classifyElementType info t0 e = .ok (ty, ot)) :
    (ot = none ∧ isPrimitive (some ty) = true) ∨
      (ot = some e ∧ isCollection (some ty) = true ∧
        (isPrimitive (some e) || isUserDefined (some e)) = true) ∨
      (ot = some e ∧ ty = "object" ∧ isUserDefined (some e) = true) := by
  have hne : ¬(e == "") = true := by
    intro hb
    rw [eq_of_beq hb] at he
    exact he rfl
  unfold classifyElementType at h
  split at h
  · rename_i hprim
    split at h
    · rename_i hcoll
      injection h with h
      injection h with hty hot
      subst hty
      subst hot
      exact Or.inr (Or.inl ⟨rfl, hcoll, by simp [hprim]⟩)
    · injection h with h
      injection h with hty hot
      subst hty
      subst hot
      exact Or.inl ⟨rfl, hprim⟩
  · rename_i hprim
    split at h
    · exact Except.noConfusion h
    rename_i hcoll
    split at h
    · exact Except.noConfusion h
    rename_i hobj
    split at h
    · exact Except.noConfusion h
    rename_i hlink
    have huser : isUserDefined (some e) = true := by
      simp only [Bool.not_eq_true] at hprim hcoll hobj hlink hne
      simp [isUserDefined, hprim, hcoll, hobj, hlink, hne]
    split at h
    · rename_i hcoll0
      injection h with h
      injection h with hty hot
      subst hty
      subst hot
      exact Or.inr (Or.inl ⟨rfl, hcoll0, by simp [huser]⟩)
    · injection h with h
      injection h with hty hot
      subst hty
      subst hot
      exact Or.inr (Or.inr ⟨rfl, rfl, huser⟩)

/-- Primitive type names carry no shorthand markers and are not the
reserved word `linkingObjects`. -/
theorem primitive_clean (t : String) (h : isPrimitive (some t) = true) :
    t.length ≠ 0 ∧ hasCollectionSuffix t = false ∧ jsEndsWith t "?" = false ∧
      (t == "linkingObjects") = false := by
  rcases isPrimitive_elim t h with h | h | h | h | h | h | h | h | h | h | h <;> subst h <;>
    exact ⟨by decide, by decide, by decide, by decide⟩

/-- Collection keywords carry no shorthand markers, are not primitive, and
are neither reserved relationship keyword. -/
theorem collection_clean (t : String) (h : isCollection (some t) = true) :
    t.length ≠ 0 ∧ hasCollectionSuffix t = false ∧ jsEndsWith t "?" = false ∧
      (t == "linkingObjects") = false ∧ isPrimitive (some t) = false ∧
      (t == "object") = false := by
  rcases isCollection_elim t h with h | h | h <;> subst h <;>
    exact ⟨by decide, by decide, by decide, by decide, by decide, by decide⟩

/-- A string without collection suffix or trailing question mark passes
the no-shorthand check. -/
theorem assertNotUsingShorthand_clean (e : String) (info : PropertyInfo)
    (h1 : hasCollectionSuffix e = false) (h2 : jsEndsWith e "?" = false) :
    assertNotUsingShorthand (some e) info = .ok () := by
  simp [assertNotUsingShorthand, h1, h2]

/-- An absent input passes the no-shorthand check. -/
theorem assertNotUsingShorthand_none (info : PropertyInfo) :
    assertNotUsingShorthand none info = .ok () := rfl

/-- The category checks accept a primitive type without `objectType` or
`property`. -/
theorem checkTypeCategories_primitive (info : PropertyInfo) (ty : String)
    (h : isPrimitive (some ty) = true) : checkTypeCategories info ty none none = .ok () := by
  have hnl : (ty == "linkingObjects") = false := (primitive_clean ty h).2.2.2
  simp [checkTypeCategories, checkTypeCategoriesBranch, h, hnl]

/-- The category checks accept a collection over a primitive or
user-defined element type. -/
theorem checkTypeCategories_collection (info : PropertyInfo) (ty e : String)
    (h : isCollection (some ty) = true)
    (he : (isPrimitive (some e) || isUserDefined (some e)) = true) :
    checkTypeCategories info ty (some e) none = .ok () := by
  obtain ⟨-, -, -, hnl, hnp, -⟩ := collection_clean ty h
  simp [checkTypeCategories, checkTypeCategoriesBranch, h, he, hnl, hnp]

/-- The category checks accept an object relationship over a user-defined
target type. -/
theorem checkTypeCategories_object (info : PropertyInfo) (e : String)
    (hu : isUserDefined (some e) = true) :
    checkTypeCategories info "object" (some e) none = .ok () := by
  simp only [checkTypeCategories, checkTypeCategoriesBranch,
    show isPrimitive (some "object") = false from rfl,
    show isCollection (some "object") = false from rfl,
    show (("object" : String) == "object") = true from rfl,
    show (("object" : String) == "linkingObjects") = false from rfl,
    Bool.false_eq_true, if_false, if_true, hu, Bool.not_false]
  rfl

/-- Re-resolving an already-resolved optionality value in the explicit
path is stable. -/
theorem resolveOptionalObject_roundtrip (info : PropertyInfo) (t : String)
    (ot : Option String) (o o' : Option Bool)
    (h : resolveOptionalObject info t ot o = .ok o') :
    resolveOptionalObject info t ot (some (o'.getD false)) = .ok (some (o'.getD false)) := by
  unfold resolveOptionalObject at h ⊢
  split at h
  · rename_i htrue
    split at h
    · exact Except.noConfusion h
    · injection h with h
      subst h
      simp [htrue]
  · rename_i htrue
    split at h
    · rename_i hfalse
      split at h
      · exact Except.noConfusion h
      · injection h with h
        subst h
        simp [htrue, hfalse]
    · rename_i hfalse
      injection h with h
      subst h
      simp [htrue, hfalse]

/-- A shorthand-resolved optionality value re-resolves unchanged through
the explicit path. -/
theorem resolveOptionalShorthand_to_object (info : PropertyInfo) (t : String)
    (ot : Option String) (o o' : Option Bool)
    (h : resolveOptionalShorthand info t ot o = .ok o') :
    resolveOptionalObject info t ot (some (o'.getD false)) = .ok (some (o'.getD false)) := by
  unfold resolveOptionalShorthand at h
  unfold resolveOptionalObject
  split at h
  · rename_i htrue
    injection h with h
    subst h
    simp [htrue]
  · rename_i htrue
    split at h
    · rename_i hfalse
      split at h
      · exact Except.noConfusion h
      · injection h with h
        subst h
        simp [htrue, hfalse]
    · rename_i hfalse
      injection h with h
      subst h
      simp [htrue, hfalse]

/-- Re-resolving an already-resolved indexing value is stable. -/
theorem resolveIndexed_roundtrip (info : PropertyInfo) (i i' : Option Bool)
    (h : resolveIndexed info i = .ok i') :
    resolveIndexed info (some (i'.getD false)) = .ok (some (i'.getD false)) := by
  unfold resolveIndexed at h ⊢
  split at h
  · rename_i hpk
    split at h
    · exact Except.noConfusion h
    · injection h with h
      subst h
      simp
  · rename_i hpk
    injection h with h
    subst h
    simp [hpk]

/-- The indexing value produced by the shorthand path re-resolves
unchanged. -/
theorem resolveIndexed_shorthand (info : PropertyInfo) :
    resolveIndexed info (some info.isPrimaryKey) = .ok (some info.isPrimaryKey) := by
  unfold resolveIndexed
  cases hpk : info.isPrimaryKey <;> simp [hpk]

/-- JavaScript fallback on an already-resolved storage name is stable. -/
theorem orDefault_idem (m : Option String) (d : String) :
    orDefault (some (orDefault m d)) d = orDefault m d := by
  cases m with
  | none => simp [orDefault, ite_self]
  | some s =>
    by_cases hs : s = ""
    · subst hs
      simp [orDefault, ite_self]
    · simp [orDefault, hs]

/-- The property name survives the JavaScript fallback. -/
theorem orDefault_self (d : String) : orDefault (some d) d = d := by
  simp [orDefault, ite_self]

/-- A canonical property record produced by a successful normalization
re-normalizes, in explicit raw form, to itself — provided its
`objectType` carries no leaked optionality marker. -/
theorem roundtrip_property (info : PropertyInfo) (r : RawPropertySchema)
    (c : CanonicalPropertySchema) (h : normalizePropertySchema info r = .ok c)
    (hm : objectTypeMarkerFree c = true) :
    normalizePropertySchemaObject info (rawOfCanonicalProperty c) = .ok c := by
  cases r with
  | explicit p =>
    obtain ⟨h0, h1, h2, h3, o, i, h4, h5, hc⟩ := normalizePropertySchemaObject_ok info p c h
    subst hc
    have h4' := resolveOptionalObject_roundtrip info p.type p.objectType p.optional o h4
    have h5' := resolveIndexed_roundtrip info p.indexed i h5
    simp [normalizePropertySchemaObject, rawOfCanonicalProperty, h0, h1, h2, h3, h4', h5',
      orDefault_idem]
  | shorthand s =>
    obtain ⟨h0, t0, r1, o0, r2, ty, ot, o, e1, e2, e3, e4, hc⟩ :=
      normalizePropertySchemaShorthand_ok info s c h
    subst hc
    obtain ⟨hcr1, hlr1⟩ := stripCollectionSuffix_ok_facts info s t0 r1 h0 e1
    obtain ⟨hcr2, hlr2⟩ := stripOptionalMarker_ok_facts info r1 o0 r2 hcr1 hlr1 e2
    have h4' := resolveOptionalShorthand_to_object info ty ot o0 o e4
    have h5' := resolveIndexed_shorthand info
    rcases classifyElementType_ok_cases info t0 r2 ty ot hlr2 e3 with
      ⟨hot, hprim⟩ | ⟨hot, hcoll, helem⟩ | ⟨hot, hty, huser⟩
    · subst hot
      obtain ⟨hl, hcs, hq, -⟩ := primitive_clean ty hprim
      have h1' := assertNotUsingShorthand_clean ty info hcs hq
      have h3' := checkTypeCategories_primitive info ty hprim
      simp [normalizePropertySchemaObject, rawOfCanonicalProperty, hl, h1',
        assertNotUsingShorthand_none, h3', h4', h5', orDefault_self]
    · subst hot
      have hq2 : jsEndsWith r2 "?" = false := by
        simpa [objectTypeMarkerFree] using hm
      obtain ⟨hlt, hcst, hqt, -, -, -⟩ := collection_clean ty hcoll
      have h1' := assertNotUsingShorthand_clean ty info hcst hqt
      have h2' := assertNotUsingShorthand_clean r2 info hcr2 hq2
      have h3' := checkTypeCategories_collection info ty r2 hcoll helem
      simp [normalizePropertySchemaObject, rawOfCanonicalProperty, hlt, h1', h2', h3', h4',
        h5', orDefault_self]
    · subst hot
      subst hty
      have hq2 : jsEndsWith r2 "?" = false := by
        simpa [objectTypeMarkerFree] using hm
      have hl : ¬(("object" : String).length = 0) := by decide
      have h1' := assertNotUsingShorthand_clean "object" info (by decide) (by decide)
      have h2' := assertNotUsingShorthand_clean r2 info hcr2 hq2
      have h3' := checkTypeCategories_object info r2 huser
      simp [normalizePropertySchemaObject, rawOfCanonicalProperty, hl, h1', h2', h3', h4',
        h5', orDefault_self]

/-- Membership check through the key list. -/
theorem hasPropertyNamed_eq_keys (l : List (String × RawPropertySchema)) (k : String) :
    hasPropertyNamed l k = (l.map Prod.fst).any (fun n => n == k) := by
  induction l with
  | nil => rfl
  | cons hd tl ih =>
    simp only [hasPropertyNamed, List.any_cons, List.map_cons] at ih ⊢
    rw [ih]

/-- The primary-key-missing flag only depends on the primary key and the
property keys. -/
theorem primaryKeyFieldIsMissing_congr (o1 o2 : ObjectSchema)
    (hpk : o1.primaryKey = o2.primaryKey)
    (hk : o1.properties.map Prod.fst = o2.properties.map Prod.fst) :
    primaryKeyFieldIsMissing o1 = primaryKeyFieldIsMissing o2 := by
  unfold primaryKeyFieldIsMissing
  rw [hpk]
  cases o2.primaryKey with
  | none => rfl
  | some pk =>
    show (!(pk == "") && !(hasPropertyNamed o1.properties pk)) =
      (!(pk == "") && !(hasPropertyNamed o2.properties pk))
    rw [hasPropertyNamed_eq_keys, hasPropertyNamed_eq_keys, hk]

/-- Keys survive the canonical-to-raw conversion of the properties
mapping. -/
theorem keys_map_raw (props : List (String × CanonicalPropertySchema)) :
    (props.map
      (fun p => (p.1, RawPropertySchema.explicit (rawOfCanonicalProperty p.2)))).map
        Prod.fst = props.map Prod.fst := by
  induction props with
  | nil => rfl
  | cons hd tl ih => simp [ih]

/-- Property normalization preserves the keys of the mapping. -/
theorem normalizePropertySchemas_keys (objectName : String)
    (props : List (String × RawPropertySchema)) (pk : Option String)
    (out : List (String × CanonicalPropertySchema))
    (h : normalizePropertySchemas objectName props pk = .ok out) :
    out.map Prod.fst = props.map Prod.fst := by
  induction props generalizing out with
  | nil =>
    unfold normalizePropertySchemas at h
    injection h with h
    subst h
    rfl
  | cons hd tl ih =>
    obtain ⟨n, r⟩ := hd
    unfold normalizePropertySchemas at h
    split at h
    · exact Except.noConfusion h
    rename_i c hc
    split at h
    · exact Except.noConfusion h
    rename_i out' hout
    injection h with h
    subst h
    simp [ih out' hout]

/-- A successfully normalized properties mapping, converted back to raw
explicit form, re-normalizes to itself (marker-free records only). -/
theorem roundtrip_properties (objectName : String) (props : List (String × RawPropertySchema))
    (pk : Option String) (out : List (String × CanonicalPropertySchema))
    (h : normalizePropertySchemas objectName props pk = .ok out)
    (hm : ∀ p ∈ out, objectTypeMarkerFree p.2 = true) :
    normalizePropertySchemas objectName
      (out.map (fun p => (p.1, RawPropertySchema.explicit (rawOfCanonicalProperty p.2)))) pk =
      .ok out := by
  induction props generalizing out with
  | nil =>
    unfold normalizePropertySchemas at h
    injection h with h
    subst h
    rfl
  | cons hd tl ih =>
    obtain ⟨n, r⟩ := hd
    unfold normalizePropertySchemas at h
    split at h
    · exact Except.noConfusion h
    rename_i c hc
    split at h
    · exact Except.noConfusion h
    rename_i out' hout
    injection h with h
    subst h
    have hmhd : objectTypeMarkerFree c = true := hm (n, c) (by simp)
    have hmtl : ∀ p ∈ out', objectTypeMarkerFree p.2 = true := fun p hp => hm p (by simp [hp])
    have hrt := roundtrip_property
      { objectName := objectName, propertyName := n, isPrimaryKey := pk == some n } r c hc hmhd
    have ihh := ih out' hout hmtl
    have hrt' : normalizePropertySchema
        { objectName := objectName, propertyName := n, isPrimaryKey := pk == some n }
        (RawPropertySchema.explicit (rawOfCanonicalProperty c)) = .ok c := hrt
    simp only [List.map_cons, normalizePropertySchemas, hrt', ihh]

/-- Elimination principle for a successful object-schema normalization in
plain mapping form. -/
theorem normalizeObjectSchemaPlain_ok (o : ObjectSchema) (C : CanonicalObjectSchema)
    (h : normalizeObjectSchemaPlain o = .ok C) :
    o.name.length ≠ 0 ∧ primaryKeyFieldIsMissing o = false ∧
      (o.asymmetric.getD false && o.embedded.getD false) = false ∧
      ∃ props, normalizePropertySchemas o.name o.properties o.primaryKey = .ok props ∧
        C = { name := o.name, primaryKey := o.primaryKey,
              asymmetric := o.asymmetric.getD false, embedded := o.embedded.getD false,
              properties := props } := by
  unfold normalizeObjectSchemaPlain at h
  split at h
  · exact Except.noConfusion h
  rename_i hname
  split at h
  · exact Except.noConfusion h
  rename_i hpk
  split at h
  · exact Except.noConfusion h
  rename_i hae
  split at h
  · exact Except.noConfusion h
  rename_i props hprops
  injection h with h
  exact ⟨hname, by simpa using hpk, by simpa using hae, props, hprops, h.symm⟩

/-- C8 amended: a successful normalization of a plain mapping-form object
definition is idempotent through the canonical-to-raw conversion, provided
no canonical property's `objectType` ends with the leaked optionality
marker (explicit-form inputs always satisfy this; only shorthand inputs
such as `x??` can violate it). -/
theorem canonical_roundtrip_idempotent (o : ObjectSchema) (C : CanonicalObjectSchema)
    (h : normalizeObjectSchema (.schema o) = .ok C)
    (hm : ∀ p ∈ C.properties, objectTypeMarkerFree p.2 = true) :
    normalizeObjectSchema (.schema (rawOfCanonicalObject C)) = .ok C := by
  have h' : normalizeObjectSchemaPlain o = .ok C := h
  obtain ⟨hname, hpk, hae, props, hprops, hC⟩ := normalizeObjectSchemaPlain_ok o C h'
  subst hC
  have hm' : ∀ p ∈ props, objectTypeMarkerFree p.2 = true := by simpa using hm
  have hkeys := normalizePropertySchemas_keys o.name o.properties o.primaryKey props hprops
  have hrt := roundtrip_properties o.name o.properties o.primaryKey props hprops hm'
  have hpk2 : primaryKeyFieldIsMissing
      { name := o.name, primaryKey := o.primaryKey,
        asymmetric := some (o.asymmetric.getD false),
        embedded := some (o.embedded.getD false),
        properties := props.map
          (fun p => (p.1, RawPropertySchema.explicit (rawOfCanonicalProperty p.2))) } =
      false := by
    have hk2 : (props.map
        (fun p => (p.1, RawPropertySchema.explicit (rawOfCanonicalProperty p.2)))).map
          Prod.fst = o.properties.map Prod.fst := by
      rw [keys_map_raw]
      exact hkeys
    have hcongr := primaryKeyFieldIsMissing_congr
      { name := o.name, primaryKey := o.primaryKey,
        asymmetric := some (o.asymmetric.getD false),
        embedded := some (o.embedded.getD false),
        properties := props.map
          (fun p => (p.1, RawPropertySchema.explicit (rawOfCanonicalProperty p.2))) }
      o rfl hk2
    rw [hcongr]
    exact hpk
  show normalizeObjectSchemaPlain _ = _
  simp [normalizeObjectSchemaPlain, rawOfCanonicalObject, hname, hpk2, hae, hrt]

/-- C8 witness: a concrete schema (primary key, primitive, relationship,
collection and linkingObjects properties) round-trips to itself. -/
theorem canonical_roundtrip_idempotent_witness :
    normalizeObjectSchema (.schema (rawOfCanonicalObject sampleCanonical)) =
      .ok sampleCanonical :=
  canonical_roundtrip_idempotent sampleObject sampleCanonical rfl (by decide)

/-- C8 counterexample: the shorthand `x??` normalizes successfully, but
its canonical form, converted back to raw form, is rejected by the
no-shorthand check on `objectType` — the round trip is not idempotent as
claimed. -/
theorem canonical_roundtrip_fails_on_marker_leak :
    normalizeObjectSchema (.schema markerLeakObject) = .ok markerLeakCanonical ∧
    normalizeObjectSchema (.schema (rawOfCanonicalObject markerLeakCanonical)) =
      .error (SchemaError.propParse "A" "p"
        "Cannot use shorthand \x27?\x27 in \x27type\x27 or \x27objectType\x27 when defining property objects.") :=
  ⟨rfl, rfl⟩

end RealmSchema
